import Mathlib

/-!
Verification of the invoice pricing calculator (`src/invoice_service.py`).

The Python source is shallowly embedded below: Python `float` values are
modelled as rationals (`ℚ`), `int` as `Int`, the nullable invoice argument
as `Option Invoice`, and the `ValueError` raised by `compute_total` as the
`Except.error` branch of `Except String`.
-/

namespace InvoiceService

/-- Embeds the `LineItem` dataclass. -/
structure LineItem where
  sku : String
  category : String
  unit_price : ℚ
  qty : Int
  fragile : Bool
deriving Repr, DecidableEq

/-- Embeds the `Invoice` dataclass. -/
structure Invoice where
  invoice_id : String
  customer_id : String
  country : String
  membership : String
  coupon : Option String
  items : List LineItem
deriving Repr, DecidableEq

/-- Embeds the `self._coupon_rate` dictionary set up in `__init__`:
`{"WELCOME10": 0.10, "VIP20": 0.20, "STUDENT5": 0.05}`, with `none`
standing for a key that is absent from the dictionary. -/
def couponRate (code : String) : Option ℚ :=
  if code = "WELCOME10" then some (10/100)
  else if code = "VIP20" then some (20/100)
  else if code = "STUDENT5" then some (5/100)
  else none

/-- Embeds `InvoiceService._validate`.  Python list `append`s become list
concatenation, and the per-item loop becomes a `flatMap` over the items,
preserving the order in which the problems are collected. -/
def validate (inv : Option Invoice) : List String :=
  match inv with
  | none => ["Invoice is missing"]
  | some inv =>
    (if inv.invoice_id = "" then ["Missing invoice_id"] else []) ++
    (if inv.customer_id = "" then ["Missing customer_id"] else []) ++
    (if inv.items = [] then ["Invoice must contain items"] else []) ++
    inv.items.flatMap (fun it =>
      (if it.sku = "" then ["Item sku is missing"] else []) ++
      (if it.qty ≤ 0 then ["Invalid qty for " ++ it.sku] else []) ++
      (if it.unit_price < 0 then ["Invalid price for " ++ it.sku] else []) ++
      (if it.category = "book" ∨ it.category = "food" ∨
          it.category = "electronics" ∨ it.category = "other"
       then [] else ["Unknown category for " ++ it.sku]))

/-- Embeds `InvoiceService._calculate_shipping`. -/
def calculateShipping (subtotal : ℚ) (country : String) : ℚ :=
  if country = "TH" then (if 500 ≤ subtotal then 0 else 60)
  else if country = "JP" then (if 4000 ≤ subtotal then 0 else 600)
  else if country = "US" then
    (if subtotal < 100 then 15
     else if subtotal < 300 then 8
     else 0)
  else (if 200 ≤ subtotal then 0 else 25)

/-- Embeds `InvoiceService._calculate_tax_rate`: lookup in
`{"TH": 0.07, "JP": 0.10, "US": 0.08}` with default `0.05`. -/
def calculateTaxRate (country : String) : ℚ :=
  if country = "TH" then 7/100
  else if country = "JP" then 10/100
  else if country = "US" then 8/100
  else 5/100

/-- Embeds `InvoiceService._calculate_discount`. -/
def calculateDiscount (membership : String) (subtotal : ℚ) : ℚ :=
  if membership = "gold" then subtotal * (3/100)
  else if membership = "platinum" then subtotal * (5/100)
  else if 3000 < subtotal then 20
  else 0

/-- Models Python's built-in `str.strip()` used by `_apply_coupon`:
removes leading and trailing whitespace characters. -/
def pyStrip (s : String) : String :=
  ⟨((s.data.dropWhile Char.isWhitespace).reverse.dropWhile
      Char.isWhitespace).reverse⟩

/-- Embeds `InvoiceService._apply_coupon` (`coupon.strip()` is modelled by
`pyStrip`).  The Python function returns the new discount and mutates the
`warnings` list in place; here the pair of the new discount and the new
warnings list is returned. -/
def applyCoupon (coupon : Option String) (subtotal discount : ℚ)
    (warnings : List String) : ℚ × List String :=
  match coupon with
  | none => (discount, warnings)
  | some c =>
    if pyStrip c = "" then (discount, warnings)
    else
      match couponRate (pyStrip c) with
      | some r => (discount + subtotal * r, warnings)
      | none => (discount, warnings ++ ["Unknown coupon"])

/-- The `subtotal` accumulated by the item loop of `compute_total`
(`subtotal += it.unit_price * it.qty`), together with the `fragile_fee`
(`fragile_fee += 5.0 * it.qty` when `it.fragile`), in one pass as in the
source. -/
def aggregate (items : List LineItem) : ℚ × ℚ :=
  items.foldl
    (fun acc it =>
      (acc.1 + it.unit_price * (it.qty : ℚ),
       if it.fragile then acc.2 + 5 * (it.qty : ℚ) else acc.2))
    (0, 0)

/-- The subtotal of an invoice, as accumulated by `compute_total`. -/
def subtotalOf (inv : Invoice) : ℚ := (aggregate inv.items).1

/-- The fragile fee of an invoice, as accumulated by `compute_total`. -/
def fragileFeeOf (inv : Invoice) : ℚ := (aggregate inv.items).2

/-- The final discount of an invoice: the membership discount from
`_calculate_discount`, then `_apply_coupon` (lines 113-114 of the source). -/
def discountOf (inv : Invoice) : ℚ :=
  (applyCoupon inv.coupon (subtotalOf inv)
    (calculateDiscount inv.membership (subtotalOf inv)) []).1

/-- The tax of an invoice: `tax = (subtotal - discount) * tax_rate`
(lines 115-116 of the source). -/
def taxOf (inv : Invoice) : ℚ :=
  (subtotalOf inv - discountOf inv) * calculateTaxRate inv.country

/-- The pre-floor combination
`subtotal + shipping + fragile_fee + tax - discount` (line 118). -/
def preTotal (inv : Invoice) : ℚ :=
  subtotalOf inv + calculateShipping (subtotalOf inv) inv.country +
    fragileFeeOf inv + taxOf inv - discountOf inv

/-- The returned total: `total = max(0.0, total)` (line 119). -/
def totalOf (inv : Invoice) : ℚ := max 0 (preTotal inv)

/-- The warnings list returned by `compute_total`: whatever `_apply_coupon`
appended to the initially empty list, then possibly
`"Consider membership upgrade"` (lines 121-122). -/
def warningsOf (inv : Invoice) : List String :=
  let w :=
    (applyCoupon inv.coupon (subtotalOf inv)
      (calculateDiscount inv.membership (subtotalOf inv)) []).2
  if 10000 < subtotalOf inv ∧ inv.membership ≠ "gold" ∧
      inv.membership ≠ "platinum"
  then w ++ ["Consider membership upgrade"]
  else w

/-- Embeds `InvoiceService.compute_total`.  A raised `ValueError` becomes
`Except.error` carrying the joined message.  When validation passes the
invoice cannot be `none` (validation of `none` produces a problem), so the
inner `none` branch is unreachable; it is mapped to the same error the
validator would have produced. -/
def computeTotal (inv : Option Invoice) : Except String (ℚ × List String) :=
  let problems := validate inv
  if problems.isEmpty then
    match inv with
    | none => Except.error "Invoice is missing"
    | some inv => Except.ok (totalOf inv, warningsOf inv)
  else
    Except.error (String.intercalate "; " problems)

/-! ### Concrete invoices used as witnesses -/

/-- The invoice of Scenario B in the spec: country `"US"`, membership
`"gold"`, coupon `"WELCOME10"`, one line item
`{sku "E1", category "electronics", unit_price 50, qty 2, fragile false}`. -/
def invB : Invoice :=
  { invoice_id := "INV-1", customer_id := "CUST-1", country := "US",
    membership := "gold", coupon := some "WELCOME10",
    items := [{ sku := "E1", category := "electronics", unit_price := 50,
                qty := 2, fragile := false }] }

/-- A line item that violates two validation rules: `qty = 0` and the
unrecognized category `"toy"`. -/
def itemBad : LineItem :=
  { sku := "B1", category := "toy", unit_price := 10, qty := 0,
    fragile := false }

/-- An invoice with three validation problems: empty `invoice_id`, and the
two problems of `itemBad`. -/
def invBad : Invoice :=
  { invoice_id := "", customer_id := "C9", country := "TH",
    membership := "regular", coupon := none, items := [itemBad] }

/-! ### Helper lemmas -/

theorem validate_invB : validate (some invB) = [] := rfl

theorem computeTotal_ok_of_valid (inv : Invoice)
    (h : validate (some inv) = []) :
    computeTotal (some inv) = Except.ok (totalOf inv, warningsOf inv) := by
  simp [computeTotal, h]

theorem computeTotal_invB :
    computeTotal (some invB) = Except.ok (10196/100, []) := by
  have hs : pyStrip "WELCOME10" = "WELCOME10" := rfl
  norm_num +decide [computeTotal, validate, invB, totalOf, warningsOf,
    preTotal, subtotalOf, fragileFeeOf, discountOf, taxOf, aggregate,
    applyCoupon, calculateShipping, calculateDiscount, calculateTaxRate,
    couponRate, hs]

theorem computeTotal_ok_inv (inv : Invoice) (t : ℚ) (w : List String)
    (h : computeTotal (some inv) = Except.ok (t, w)) :
    t = totalOf inv ∧ w = warningsOf inv := by
  by_cases hv : (validate (some inv)).isEmpty <;>
    simp only [computeTotal, hv, if_true, if_false, Bool.false_eq_true,
      if_neg, ite_false, ite_true] at h
  · rw [Except.ok.injEq, Prod.mk.injEq] at h
    exact ⟨h.1.symm, h.2.symm⟩
  · exact absurd h (by simp)

theorem applyCoupon_warnings (c : Option String) (s d : ℚ) :
    (applyCoupon c s d []).2 = [] ∨
    (applyCoupon c s d []).2 = ["Unknown coupon"] := by
  match c with
  | none => exact Or.inl rfl
  | some code =>
    rw [applyCoupon]
    split_ifs with h
    · exact Or.inl rfl
    · cases hcr : couponRate (pyStrip code) <;> simp

theorem couponRate_empty : couponRate "" = none := rfl

/-! ### Claim theorems -/

/-- C1: every invoice that passes validation produces a successful result
whose total is `max 0 (subtotal + shipping + fragile_fee + tax - discount)`,
hence nonnegative, no matter how negative the pre-floor combination is. -/
theorem total_floored_nonneg (inv : Invoice)
    (h : validate (some inv) = []) :
    computeTotal (some inv) = Except.ok (totalOf inv, warningsOf inv) ∧
    totalOf inv =
      max 0 (subtotalOf inv + calculateShipping (subtotalOf inv) inv.country +
        fragileFeeOf inv + taxOf inv - discountOf inv) ∧
    0 ≤ totalOf inv :=
  ⟨computeTotal_ok_of_valid inv h, rfl, le_max_left 0 _⟩

/-- Witness for C1 at the Scenario B invoice. -/
theorem total_floored_nonneg_witness :
    computeTotal (some invB) = Except.ok (totalOf invB, warningsOf invB) ∧
    totalOf invB =
      max 0 (subtotalOf invB + calculateShipping (subtotalOf invB) invB.country +
        fragileFeeOf invB + taxOf invB - discountOf invB) ∧
    0 ≤ totalOf invB :=
  total_floored_nonneg invB rfl

/-- C2: for every valid invoice, the tax is `(subtotal - discount) * rate`
where the rate is 0.07 for "TH", 0.10 for "JP", 0.08 for "US" and 0.05 for
any other country, and the tax is negative exactly when the discount
exceeds the subtotal (no independent clamping of the tax term). -/
theorem tax_rule (inv : Invoice) (h : validate (some inv) = []) :
    taxOf inv = (subtotalOf inv - discountOf inv) * calculateTaxRate inv.country ∧
    calculateTaxRate "TH" = 7/100 ∧
    calculateTaxRate "JP" = 10/100 ∧
    calculateTaxRate "US" = 8/100 ∧
    (∀ c : String, c ≠ "TH" → c ≠ "JP" → c ≠ "US" →
      calculateTaxRate c = 5/100) ∧
    (taxOf inv < 0 ↔ subtotalOf inv < discountOf inv) := by
  have hrpos : 0 < calculateTaxRate inv.country := by
    rw [calculateTaxRate]
    split_ifs <;> norm_num
  refine ⟨rfl, rfl, rfl, rfl, ?_, ?_⟩
  · intro c h1 h2 h3
    simp [calculateTaxRate, h1, h2, h3]
  · rw [taxOf]
    constructor
    · intro hneg
      by_contra hc
      push_neg at hc
      have hnn : 0 ≤ (subtotalOf inv - discountOf inv) *
          calculateTaxRate inv.country :=
        mul_nonneg (by linarith) hrpos.le
      linarith
    · intro hlt
      exact mul_neg_of_neg_of_pos (by linarith) hrpos

/-- Witness for C2 at the Scenario B invoice and country "FR". -/
theorem tax_rule_witness :
    calculateTaxRate "FR" = 5/100 ∧
    (taxOf invB < 0 ↔ subtotalOf invB < discountOf invB) :=
  ⟨(tax_rule invB rfl).2.2.2.2.1 "FR" (by decide) (by decide) (by decide),
   (tax_rule invB rfl).2.2.2.2.2⟩

/-- C7: Scenario B — subtotal 100, shipping 8, discount 13 (3 from gold
membership, 10 from coupon WELCOME10), tax (100 − 13) × 0.08 = 6.96,
total 101.96, no warnings. -/
theorem scenario_b_values :
    subtotalOf invB = 100 ∧
    calculateShipping (subtotalOf invB) invB.country = 8 ∧
    calculateDiscount invB.membership (subtotalOf invB) = 3 ∧
    discountOf invB = 13 ∧
    taxOf invB = 696/100 ∧
    totalOf invB = 10196/100 ∧
    computeTotal (some invB) = Except.ok (10196/100, []) := by
  have hs : pyStrip "WELCOME10" = "WELCOME10" := rfl
  refine ⟨?_, ?_, ?_, ?_, ?_, ?_, computeTotal_invB⟩ <;>
    norm_num +decide [totalOf, preTotal, subtotalOf, fragileFeeOf,
      discountOf, taxOf, aggregate, applyCoupon, calculateShipping,
      calculateDiscount, calculateTaxRate, couponRate, invB, hs]

/-- C3: whenever validation finds at least one problem, `compute_total`
fails with the single error whose message is all collected problems joined
by "; "; an absent invoice yields exactly `["Invoice is missing"]`; and
each per-item problem (shown here for qty, price and category) is
collected no matter where in the item list the offending item sits. -/
theorem invalid_invoice_error (inv? : Option Invoice)
    (h : validate inv? ≠ []) :
    computeTotal inv? =
      Except.error (String.intercalate "; " (validate inv?)) ∧
    validate none = ["Invoice is missing"] ∧
    (∀ inv it, inv? = some inv → it ∈ inv.items → it.qty ≤ 0 →
      ("Invalid qty for " ++ it.sku) ∈ validate inv?) ∧
    (∀ inv it, inv? = some inv → it ∈ inv.items → it.unit_price < 0 →
      ("Invalid price for " ++ it.sku) ∈ validate inv?) ∧
    (∀ inv it, inv? = some inv → it ∈ inv.items →
      it.category ≠ "book" → it.category ≠ "food" →
      it.category ≠ "electronics" → it.category ≠ "other" →
      ("Unknown category for " ++ it.sku) ∈ validate inv?) := by
  have hfalse : (validate inv?).isEmpty = false := by
    cases hv : validate inv? with
    | nil => exact absurd hv h
    | cons a l => rfl
  refine ⟨?_, rfl, ?_, ?_, ?_⟩
  · simp [computeTotal, hfalse]
  · rintro inv it rfl hit hqty
    simp only [validate, List.mem_append, List.mem_flatMap]
    exact Or.inr ⟨it, hit, by simp [hqty]⟩
  · rintro inv it rfl hit hprice
    simp only [validate, List.mem_append, List.mem_flatMap]
    exact Or.inr ⟨it, hit, by simp [hprice]⟩
  · rintro inv it rfl hit h1 h2 h3 h4
    simp only [validate, List.mem_append, List.mem_flatMap]
    exact Or.inr ⟨it, hit, by simp [h1, h2, h3, h4]⟩

/-- Witness for C3 at `invBad` (empty invoice_id, item with qty 0 and
category "toy"). -/
theorem invalid_invoice_error_witness :
    computeTotal (some invBad) =
      Except.error (String.intercalate "; " (validate (some invBad))) ∧
    ("Invalid qty for " ++ itemBad.sku) ∈ validate (some invBad) ∧
    ("Unknown category for " ++ itemBad.sku) ∈ validate (some invBad) :=
  ⟨(invalid_invoice_error (some invBad) (by decide)).1,
   (invalid_invoice_error (some invBad) (by decide)).2.2.1 invBad itemBad
     rfl (List.mem_cons_self itemBad []) (by decide),
   (invalid_invoice_error (some invBad) (by decide)).2.2.2.2 invBad itemBad
     rfl (List.mem_cons_self itemBad []) (by decide) (by decide) (by decide)
     (by decide)⟩

/-- C4: coupon application has exactly three behaviours — absent/blank
coupon: discount unchanged, no warning; trimmed code in the table
(WELCOME10 → 0.10, VIP20 → 0.20, STUDENT5 → 0.05): discount plus
subtotal × rate, no warning; any other non-blank code: discount unchanged
and the single warning "Unknown coupon" appended. -/
theorem coupon_trichotomy (coupon : Option String)
    (subtotal discount : ℚ) (warnings : List String) :
    ((coupon = none ∨ ∃ c, coupon = some c ∧ pyStrip c = "") →
      applyCoupon coupon subtotal discount warnings = (discount, warnings)) ∧
    (∀ c r, coupon = some c → couponRate (pyStrip c) = some r →
      applyCoupon coupon subtotal discount warnings =
        (discount + subtotal * r, warnings)) ∧
    (∀ c, coupon = some c → pyStrip c ≠ "" →
      couponRate (pyStrip c) = none →
      applyCoupon coupon subtotal discount warnings =
        (discount, warnings ++ ["Unknown coupon"])) ∧
    couponRate "WELCOME10" = some (10/100) ∧
    couponRate "VIP20" = some (20/100) ∧
    couponRate "STUDENT5" = some (5/100) := by
  refine ⟨?_, ?_, ?_, rfl, rfl, rfl⟩
  · rintro (rfl | ⟨c, rfl, hc⟩)
    · rfl
    · simp [applyCoupon, hc]
  · rintro c r rfl hr
    have hne : pyStrip c ≠ "" := by
      intro he
      rw [he, couponRate_empty] at hr
      exact Option.noConfusion hr
    simp [applyCoupon, hne, hr]
  · rintro c rfl h1 h2
    simp [applyCoupon, h1, h2]

/-- Witness for C4: one instance of each of the three behaviours. -/
theorem coupon_trichotomy_witness :
    applyCoupon (some "  VIP20  ") 100 7 [] = (7 + 100 * (20/100), []) ∧
    applyCoupon (some "BADCODE") 100 7 [] = (7, ["Unknown coupon"]) ∧
    applyCoupon none 100 7 [] = (7, []) ∧
    applyCoupon (some "   ") 100 7 [] = (7, []) :=
  ⟨(coupon_trichotomy (some "  VIP20  ") 100 7 []).2.1 "  VIP20  "
     (20/100) rfl rfl,
   (coupon_trichotomy (some "BADCODE") 100 7 []).2.2.1 "BADCODE" rfl
     (by decide) rfl,
   (coupon_trichotomy none 100 7 []).1 (Or.inl rfl),
   (coupon_trichotomy (some "   ") 100 7 []).1
     (Or.inr ⟨"   ", rfl, by decide⟩)⟩

/-- C5: the shipping charge follows the piecewise rule of the spec for
"TH", "JP", "US" and the default country branch. -/
theorem shipping_rule (s : ℚ) (c : String) :
    (c = "TH" → calculateShipping s c = if 500 ≤ s then 0 else 60) ∧
    (c = "JP" → calculateShipping s c = if 4000 ≤ s then 0 else 600) ∧
    (c = "US" → s < 100 → calculateShipping s c = 15) ∧
    (c = "US" → 100 ≤ s → s < 300 → calculateShipping s c = 8) ∧
    (c = "US" → 300 ≤ s → calculateShipping s c = 0) ∧
    (c ≠ "TH" → c ≠ "JP" → c ≠ "US" →
      calculateShipping s c = if 200 ≤ s then 0 else 25) := by
  refine ⟨?_, ?_, ?_, ?_, ?_, ?_⟩
  · rintro rfl; simp [calculateShipping]
  · rintro rfl; simp [calculateShipping]
  · rintro rfl hs; simp [calculateShipping, hs]
  · rintro rfl hs1 hs2
    simp [calculateShipping, not_lt.2 hs1, hs2]
  · rintro rfl hs
    have h1 : ¬s < 100 := not_lt.2 (by linarith)
    have h2 : ¬s < 300 := not_lt.2 hs
    simp [calculateShipping, h1, h2]
  · intro h1 h2 h3
    simp [calculateShipping, h1, h2, h3]

/-- Witness for C5: one concrete subtotal in each country branch. -/
theorem shipping_rule_witness :
    calculateShipping 450 "TH" = (if (500:ℚ) ≤ 450 then 0 else 60) ∧
    calculateShipping 5000 "JP" = (if (4000:ℚ) ≤ 5000 then 0 else 600) ∧
    calculateShipping 50 "US" = 15 ∧
    calculateShipping 150 "US" = 8 ∧
    calculateShipping 300 "US" = 0 ∧
    calculateShipping 199 "FR" = (if (200:ℚ) ≤ 199 then 0 else 25) :=
  ⟨(shipping_rule 450 "TH").1 rfl,
   (shipping_rule 5000 "JP").2.1 rfl,
   (shipping_rule 50 "US").2.2.1 rfl (by decide),
   (shipping_rule 150 "US").2.2.2.1 rfl (by decide) (by decide),
   (shipping_rule 300 "US").2.2.2.2.1 rfl (by decide),
   (shipping_rule 199 "FR").2.2.2.2.2 (by decide) (by decide) (by decide)⟩

/-- C6: the membership discount is 0.03 × subtotal for "gold",
0.05 × subtotal for "platinum", a flat 20 for any other membership when
subtotal > 3000, and 0 otherwise. -/
theorem discount_rule (m : String) (s : ℚ) :
    (m = "gold" → calculateDiscount m s = s * (3/100)) ∧
    (m = "platinum" → calculateDiscount m s = s * (5/100)) ∧
    (m ≠ "gold" → m ≠ "platinum" → 3000 < s →
      calculateDiscount m s = 20) ∧
    (m ≠ "gold" → m ≠ "platinum" → s ≤ 3000 →
      calculateDiscount m s = 0) := by
  refine ⟨?_, ?_, ?_, ?_⟩
  · rintro rfl; simp [calculateDiscount]
  · rintro rfl; simp [calculateDiscount]
  · intro h1 h2 h3
    simp [calculateDiscount, h1, h2, h3]
  · intro h1 h2 h3
    simp [calculateDiscount, h1, h2, not_lt.2 h3]

/-- Witness for C6: one concrete input per branch. -/
theorem discount_rule_witness :
    calculateDiscount "gold" 200 = 200 * (3/100) ∧
    calculateDiscount "platinum" 200 = 200 * (5/100) ∧
    calculateDiscount "regular" 4000 = 20 ∧
    calculateDiscount "regular" 200 = 0 :=
  ⟨(discount_rule "gold" 200).1 rfl,
   (discount_rule "platinum" 200).2.1 rfl,
   (discount_rule "regular" 4000).2.2.1 (by decide) (by decide) (by decide),
   (discount_rule "regular" 200).2.2.2 (by decide) (by decide) (by decide)⟩

/-- C8: applying a coupon whose trimmed code is in the rate table never
decreases the discount relative to omitting the coupon, for any subtotal
≥ 0; every rate in the table is positive. -/
theorem coupon_monotone (c : String) (s d : ℚ) (w : List String) (r : ℚ)
    (hs : 0 ≤ s) (hr : couponRate (pyStrip c) = some r) :
    (applyCoupon none s d w).1 ≤ (applyCoupon (some c) s d w).1 ∧
    0 < r := by
  have hrpos : 0 < r := by
    rw [couponRate] at hr
    split_ifs at hr
    · injection hr with h; rw [← h]; norm_num
    · injection hr with h; rw [← h]; norm_num
    · injection hr with h; rw [← h]; norm_num
  have hne : pyStrip c ≠ "" := by
    intro he
    rw [he, couponRate_empty] at hr
    exact Option.noConfusion hr
  refine ⟨?_, hrpos⟩
  simp only [applyCoupon, if_neg hne, hr]
  exact le_add_of_nonneg_right (mul_nonneg hs hrpos.le)

/-- Witness for C8 with coupon "VIP20", subtotal 10, discount 0. -/
theorem coupon_monotone_witness :
    (applyCoupon none 10 0 []).1 ≤ (applyCoupon (some "VIP20") 10 0 []).1 ∧
    0 < (20/100 : ℚ) :=
  coupon_monotone "VIP20" 10 0 [] (20/100) (by decide) rfl

/-- C10: a successful run returns a warnings list drawn from
`{"Unknown coupon", "Consider membership upgrade"}` with each warning at
most once and "Unknown coupon" first, and "Consider membership upgrade"
appears exactly when subtotal > 10000 and membership is neither "gold" nor
"platinum". -/
theorem warnings_invariant (inv : Invoice) (t : ℚ) (w : List String)
    (h : computeTotal (some inv) = Except.ok (t, w)) :
    (w = [] ∨ w = ["Unknown coupon"] ∨
      w = ["Consider membership upgrade"] ∨
      w = ["Unknown coupon", "Consider membership upgrade"]) ∧
    ("Consider membership upgrade" ∈ w ↔
      (10000 < subtotalOf inv ∧ inv.membership ≠ "gold" ∧
        inv.membership ≠ "platinum")) := by
  obtain ⟨-, hw⟩ := computeTotal_ok_inv inv t w h
  subst hw
  rw [warningsOf]
  rcases applyCoupon_warnings inv.coupon (subtotalOf inv)
      (calculateDiscount inv.membership (subtotalOf inv)) with h1 | h1 <;>
    simp only [h1] <;> split_ifs with hc <;> simp_all

/-- Witness for C10 at the Scenario B invoice. -/
theorem warnings_invariant_witness :
    (([] : List String) = [] ∨ ([] : List String) = ["Unknown coupon"] ∨
      ([] : List String) = ["Consider membership upgrade"] ∨
      ([] : List String) = ["Unknown coupon", "Consider membership upgrade"]) ∧
    ("Consider membership upgrade" ∈ ([] : List String) ↔
      (10000 < subtotalOf invB ∧ invB.membership ≠ "gold" ∧
        invB.membership ≠ "platinum")) :=
  warnings_invariant invB (10196/100) [] computeTotal_invB

end InvoiceService
